import Mathlib

/-!
Shallow embedding of the repetition-counting core of the AI Pull-Up Coach
backend (`src/backend/models/pull_up_counter.py`, `src/backend/models/
squat_counter.py`, `src/backend/models/base_counter.py`,
`src/backend/utils/keypoint_utils.py`).

Python floats are modelled as rationals (ℚ); the wall clock (`time.time()`)
is threaded through as an explicit `now : ℚ` parameter; `deque(maxlen=n)`
is modelled as a list with eviction from the front on append.
-/

/-- A YOLO pose keypoint `[x, y, confidence]`. -/
structure Keypoint where
  x : ℚ
  y : ℚ
  conf : ℚ
deriving DecidableEq, Repr

instance : Inhabited Keypoint := ⟨⟨0, 0, 0⟩⟩

/-- Configuration fields consulted by the pull-up counter
(`config.min_confidence`, `config.rep_cooldown`, `config.min_consecutive_frames`,
`config.movement_threshold`, `config.min_movement_range`). -/
structure Config where
  min_confidence : ℚ
  rep_cooldown : ℚ
  min_consecutive_frames : ℚ
  movement_threshold : ℚ
  min_movement_range : ℚ
deriving Repr

/-- Modelled from the spec: `config/pull_up_config.py` is imported by
`pull_up_counter.py` but absent from the sources. The spec fixes the pull-up
defaults as `minConfidence=0.3, rep_cooldown=2.0, min_consecutive_frames=3,
movement_threshold=8, min_movement_range=30`, matching the sibling
`BicepCurlConfig` in `config/bicep_curl_config.py`. -/
def pullUpConfig : Config :=
  { min_confidence := 3/10
    rep_cooldown := 2
    min_consecutive_frames := 3
    movement_threshold := 8
    min_movement_range := 30 }

/-- Append to a `collections.deque(maxlen := maxlen)`: the oldest elements are
evicted from the front once the bound is exceeded. -/
def dequeAppend {α : Type} (maxlen : ℕ) (xs : List α) (x : α) : List α :=
  let ys := xs ++ [x]
  if maxlen < ys.length then ys.drop (ys.length - maxlen) else ys

/-- Embeds `keypoint_utils.extract_shoulder_wrist_keypoints`: returns the four joints
at indices 5, 6, 9, 10 together with the minimum confidence among them, or
`none` when the array has fewer than 17 keypoints. -/
def extract_shoulder_wrist_keypoints (keypoints : List Keypoint) :
    Option (Keypoint × Keypoint × Keypoint × Keypoint × ℚ) :=
  if keypoints.length < 17 then none
  else
    let left_shoulder := keypoints.getD 5 default
    let right_shoulder := keypoints.getD 6 default
    let left_wrist := keypoints.getD 9 default
    let right_wrist := keypoints.getD 10 default
    let min_confidence :=
      min (min (min left_shoulder.conf right_shoulder.conf) left_wrist.conf)
        right_wrist.conf
    some (left_shoulder, right_shoulder, left_wrist, right_wrist, min_confidence)

/-- Embeds `keypoint_utils.calculate_wrist_shoulder_diff` on the default path
(`arm="both"`, `direction="vertical"`), as called by the pull-up counter:
average wrist y minus average shoulder y. -/
def calculate_wrist_shoulder_diff (left_shoulder right_shoulder left_wrist
    right_wrist : Keypoint) : ℚ :=
  let shoulder := (left_shoulder.y + right_shoulder.y) / 2
  let wrist := (left_wrist.y + right_wrist.y) / 2
  wrist - shoulder

set_option linter.unusedVariables false in
/-- Embeds `keypoint_utils.calculate_hip_knee_diff` (default `direction="vertical"`).
The source computes `knee_y = (left_knee[1] + left_knee[1]) / 2`: the
`right_knee` argument is received but never used. -/
def calculate_hip_knee_diff (left_hip right_hip left_knee right_knee : Keypoint) :
    ℚ :=
  let hip_y := (left_hip.y + right_hip.y) / 2
  let knee_y := (left_knee.y + left_knee.y) / 2
  |hip_y - knee_y|

/-- The hip/knee reduction as the spec words it: absolute difference between
the average hip height and the average knee height, the knee average taken
over both knees. Written for comparison with `calculate_hip_knee_diff`. -/
def calculate_hip_knee_diff_claim (left_hip right_hip left_knee
    right_knee : Keypoint) : ℚ :=
  |((left_hip.y + right_hip.y) / 2) - ((left_knee.y + right_knee.y) / 2)|

/-- An entry of the direction history: `(direction, timestamp, position)`. -/
abbrev DirEntry := String × ℚ × ℚ

/-- The mutable state of a `PullUpCounter` instance. -/
structure CounterState where
  count : ℕ
  status : String
  position_history : List ℚ
  direction_history : List DirEntry
  last_rep_time : ℚ
  current_direction : String
  consecutive_up_frames : ℚ
  consecutive_down_frames : ℚ
  frame_count : ℕ
deriving Repr

namespace PullUpCounter

def POSITION_HISTORY_SIZE : ℕ := 30

def DIRECTION_HISTORY_SIZE : ℕ := 10

def LOOKBACK_FRAMES : ℕ := 5

def STABLE_DECAY_RATE : ℚ := 1/2

def DIRECTION_UP : String := "up"

def DIRECTION_DOWN : String := "down"

def DIRECTION_STABLE : String := "stable"

def DIRECTION_STARTING : String := "starting"

def STATUS_PULLING_UP : String := "pulling_up"

def STATUS_LOWERING_DOWN : String := "lowering_down"

def STATUS_STABLE : String := "stable"

def STATUS_NEUTRAL : String := "neutral"

def STATUS_NO_PERSON : String := "no_person"

def STATUS_INVALID_KEYPOINTS : String := "invalid_keypoints"

def STATUS_LOW_CONFIDENCE : String := "low_confidence"

/-- Embeds `PullUpCounter.__init__`: the initial counter state. -/
def initState : CounterState :=
  { count := 0
    status := STATUS_NEUTRAL
    position_history := []
    direction_history := []
    last_rep_time := 0
    current_direction := DIRECTION_STABLE
    consecutive_up_frames := 0
    consecutive_down_frames := 0
    frame_count := 0 }

/-- Embeds `PullUpCounter._calculate_movement_from_history`: `none` with fewer than
`LOOKBACK_FRAMES` samples, otherwise last minus first of the 5 most recent
samples. -/
def _calculate_movement_from_history (position_history : List ℚ) : Option ℚ :=
  if position_history.length < LOOKBACK_FRAMES then none
  else
    let recent_positions :=
      position_history.drop (position_history.length - LOOKBACK_FRAMES)
    some (recent_positions.getLastD 0 - recent_positions.headD 0)

/-- Embeds `PullUpCounter._classify_movement_direction`. -/
def _classify_movement_direction (cfg : Config) (movement : ℚ) : String :=
  if cfg.movement_threshold < movement then DIRECTION_UP
  else if movement < -cfg.movement_threshold then DIRECTION_DOWN
  else DIRECTION_STABLE

/-- Embeds `PullUpCounter._update_consecutive_frame_counters`. -/
def _update_consecutive_frame_counters (s : CounterState)
    (detected_direction : String) : CounterState :=
  if detected_direction = DIRECTION_UP then
    { s with consecutive_up_frames := s.consecutive_up_frames + 1,
             consecutive_down_frames := 0 }
  else if detected_direction = DIRECTION_DOWN then
    { s with consecutive_down_frames := s.consecutive_down_frames + 1,
             consecutive_up_frames := 0 }
  else
    let s1 :=
      if 0 < s.consecutive_up_frames then
        { s with consecutive_up_frames := max 0 (s.consecutive_up_frames - STABLE_DECAY_RATE) }
      else s
    if 0 < s1.consecutive_down_frames then
      { s1 with consecutive_down_frames := max 0 (s1.consecutive_down_frames - STABLE_DECAY_RATE) }
    else s1

/-- Embeds `PullUpCounter._get_confirmed_direction`. -/
def _get_confirmed_direction (cfg : Config) (s : CounterState) : String :=
  if cfg.min_consecutive_frames ≤ s.consecutive_up_frames then DIRECTION_UP
  else if cfg.min_consecutive_frames ≤ s.consecutive_down_frames then
    DIRECTION_DOWN
  else if s.consecutive_up_frames = 0 ∧ s.consecutive_down_frames = 0 then
    DIRECTION_STABLE
  else s.current_direction

/-- Embeds `PullUpCounter._record_direction_change` (the `time.time()` read is the
explicit `now`). -/
def _record_direction_change (s : CounterState) (new_direction : String)
    (now current_diff : ℚ) : CounterState :=
  { s with
      direction_history := dequeAppend DIRECTION_HISTORY_SIZE s.direction_history (new_direction, now, current_diff),
      current_direction := new_direction }

/-- Embeds `PullUpCounter.detect_direction_change`: returns the updated state together
with the confirmed direction and the movement magnitude. -/
def detect_direction_change (cfg : Config) (s : CounterState)
    (now current_diff : ℚ) : CounterState × String × ℚ :=
  let s0 := { s with position_history := dequeAppend POSITION_HISTORY_SIZE s.position_history current_diff }
  match _calculate_movement_from_history s0.position_history with
  | none => (s0, DIRECTION_STARTING, 0)
  | some movement =>
    let detected_direction := _classify_movement_direction cfg movement
    let s1 := _update_consecutive_frame_counters s0 detected_direction
    let confirmed_direction := _get_confirmed_direction cfg s1
    let s2 :=
      if confirmed_direction ≠ s1.current_direction then
        _record_direction_change s1 confirmed_direction now current_diff
      else s1
    (s2, confirmed_direction, |movement|)

/-- Embeds `PullUpCounter._validate_keypoints`: `error status` for an unusable frame,
`ok wrist_shoulder_diff` for a usable one. `none` models a Python `None`
keypoint array. -/
def _validate_keypoints (cfg : Config) (keypoints : Option (List Keypoint)) :
    Except String ℚ :=
  match keypoints with
  | none => .error STATUS_NO_PERSON
  | some ks =>
    if ks.length = 0 then .error STATUS_NO_PERSON
    else
      match extract_shoulder_wrist_keypoints ks with
      | none => .error STATUS_INVALID_KEYPOINTS
      | some (ls, rs, lw, rw, min_confidence) =>
        if min_confidence < cfg.min_confidence then .error STATUS_LOW_CONFIDENCE
        else .ok (calculate_wrist_shoulder_diff ls rs lw rw)

/-- Embeds `PullUpCounter._count_rep` (the `time.time()` read is the explicit `now`):
increment the count, stamp the rep time, clear the direction history. -/
def _count_rep (s : CounterState) (now : ℚ) : CounterState :=
  { s with count := s.count + 1, last_rep_time := now, direction_history := [] }

/-- Embeds `PullUpCounter._check_for_rep_completion` (the `time.time()` read is the
explicit `now`): returns the updated state and whether a rep was counted. -/
def _check_for_rep_completion (cfg : Config) (s : CounterState) (now : ℚ) :
    CounterState × Bool :=
  if now - s.last_rep_time ≤ cfg.rep_cooldown then (s, false)
  else if s.direction_history.length < 2 then (s, false)
  else
    let recent_changes :=
      s.direction_history.drop (s.direction_history.length - 2)
    let prev_direction := (recent_changes.headD ("", 0, 0)).1
    let curr_direction := (recent_changes.getLastD ("", 0, 0)).1
    if ¬(prev_direction = DIRECTION_UP ∧ curr_direction = DIRECTION_DOWN) then
      (s, false)
    else
      let down_position := (recent_changes.headD ("", 0, 0)).2.2
      let up_position := (recent_changes.getLastD ("", 0, 0)).2.2
      let movement_range := |up_position - down_position|
      if movement_range ≤ cfg.min_movement_range then (s, false)
      else (_count_rep s now, true)

/-- Embeds `PullUpCounter._update_display_status`. -/
def _update_display_status (s : CounterState) (direction : String) :
    CounterState :=
  if direction = DIRECTION_UP then { s with status := STATUS_PULLING_UP }
  else if direction = DIRECTION_DOWN then
    { s with status := STATUS_LOWERING_DOWN }
  else { s with status := STATUS_STABLE }

/-- Embeds `PullUpCounter.analyze_pose`: the per-frame entry point. Returns the
updated state together with the returned `(count, status)` pair. -/
def analyze_pose (cfg : Config) (s : CounterState)
    (keypoints : Option (List Keypoint)) (now : ℚ) :
    CounterState × ℕ × String :=
  match _validate_keypoints cfg keypoints with
  | .error error_status => (s, s.count, error_status)
  | .ok wrist_shoulder_diff =>
    let r1 := detect_direction_change cfg s now wrist_shoulder_diff
    let r2 := _check_for_rep_completion cfg r1.1 now
    let s3 := _update_display_status r2.1 r1.2.1
    (s3, s3.count, s3.status)

/-- Embeds `PullUpCounter.reset`: reinitialize every field to its constructed value. -/
def reset (_s : CounterState) : CounterState := initState

/-- Fold `analyze_pose` over a list of `(frame, now)` inputs. -/
def runFrames (cfg : Config) (s : CounterState) :
    List (Option (List Keypoint) × ℚ) → CounterState
  | [] => s
  | (kp, now) :: rest => runFrames cfg (analyze_pose cfg s kp now).1 rest

/-- A state is reachable when some input sequence leads to it from the
initial state (which is also the state after any `reset`). -/
def Reachable (cfg : Config) (s : CounterState) : Prop :=
  ∃ inputs, runFrames cfg initState inputs = s

end PullUpCounter

/-- Python's dedent rule (The Python Language Reference, section 2.1.8): a
logical line whose indentation width is smaller than the stack top must equal
one of the widths on the indentation stack; all larger widths are popped, and
a width matching no enclosing level is an `IndentationError` (`none`). -/
def dedentTo : List ℕ → ℕ → Option (List ℕ)
  | [], _ => none
  | top :: rest, w =>
    if top = w then some (top :: rest)
    else if top < w then none
    else dedentTo rest w

/-- Processes one logical line of indentation width `w`: a width larger than
the stack top is pushed, an equal width leaves the stack unchanged, and a
smaller width dedents via `dedentTo`. -/
def indentStep (stack : List ℕ) (w : ℕ) : Option (List ℕ) :=
  match stack with
  | [] => none
  | top :: rest =>
    if top < w then some (w :: top :: rest)
    else dedentTo (top :: rest) w

/-- Runs the indentation rule over the successive logical-line widths of a
module, starting from the stack `[0]`; `none` models the tokenizer aborting
compilation of the module with an `IndentationError`. -/
def tokenizeIndents (stack : List ℕ) : List ℕ → Option (List ℕ)
  | [] => some stack
  | w :: ws =>
    match indentStep stack w with
    | none => none
    | some stack2 => tokenizeIndents stack2 ws

/-- Indentation widths (leading spaces; the file contains no tabs) of the
successive logical lines of `src/backend/models/base_counter.py`, in file
order. Blank lines, comment-only lines, and continuation lines (lines inside
an open triple-quoted docstring or an open bracket) begin no logical line and
contribute no width. The width `9` at position 78 is source line 163
(`def detect_direction_change`), dedenting from the enclosing widths
0/4/8/16/20 to a level that is on no enclosing suite. -/
def baseCounterIndentWidths : List ℕ :=
  [0, 0, 0, 0, 0, 4, 4, 4, 4, 4, 4, 4, 4, 4, 4, 4, 4, 4, 4, 4,
    4, 4, 8, 8, 8, 8, 8, 8, 8, 8, 8, 8, 8, 4, 12, 12, 16, 12, 12, 12,
    4, 8, 8, 12, 8, 12, 8, 12, 4, 8, 8, 12, 12, 8, 12, 12, 8, 12, 16, 12,
    16, 4, 8, 8, 12, 8, 12, 8, 12, 8, 12, 8, 16, 16, 16, 16, 20, 9, 13, 13,
    13, 13, 17, 13, 13, 13, 13, 17, 13, 8, 12, 12, 12, 12, 16, 16, 12, 8, 12, 12,
    16, 12, 16, 12, 16, 8, 12, 12, 16, 16, 20, 16, 16, 16, 16, 12, 16, 16, 8, 12,
    16, 12, 16, 12, 16, 8, 12, 12, 12, 12, 12, 12, 12, 12, 12, 12, 12]

/-- Embeds `Counter.__init__(self, config, logger)` as written in the source
text of `base_counter.py`, with Python call-arity semantics: an argument list
of any length other than exactly two raises `TypeError`. The surrounding
module never compiles (its indentation profile `baseCounterIndentWidths` is
rejected), so this initializer is reachable only behind the import gate of
`SquatCounter.construct`. -/
def Counter.init {α : Type} (args : List α) :
    Except String (α × α × CounterState) :=
  match args with
  | [config, logger] => .ok (config, logger, PullUpCounter.initState)
  | _ => .error "TypeError"

/-- Embeds `SquatCounter.__init__(self, config, logger, test_script=False)`
as written in the source text of `squat_counter.py`: it forwards the three
arguments `(config, logger, test_script)` to `Counter.__init__`. -/
def SquatCounter.init {α : Type} (config logger test_script : α) :
    Except String (α × α × CounterState) :=
  Counter.init [config, logger, test_script]

/-- Embeds the full construction pipeline for a squat counter: line 1 of
`squat_counter.py` imports `Counter` from `models.base_counter`, which first
compiles that module; compilation tokenizes its indentation profile, and a
rejected profile aborts the import with `IndentationError` before
`SquatCounter` is ever defined. Only on a successful import would the
construction reach `SquatCounter.init`. -/
def SquatCounter.construct {α : Type} (config logger test_script : α) :
    Except String (α × α × CounterState) :=
  match tokenizeIndents [0] baseCounterIndentWidths with
  | none => .error "IndentationError"
  | some _ => SquatCounter.init config logger test_script

/-- Concrete 17-keypoint frame (all joints at the origin) with uniform
confidence `c`, used to evaluate the embedding at specific inputs. -/
def frame17 (c : ℚ) : List Keypoint :=
  [⟨0, 0, c⟩, ⟨0, 0, c⟩, ⟨0, 0, c⟩, ⟨0, 0, c⟩, ⟨0, 0, c⟩, ⟨0, 0, c⟩, ⟨0, 0, c⟩, ⟨0, 0, c⟩,
    ⟨0, 0, c⟩, ⟨0, 0, c⟩, ⟨0, 0, c⟩, ⟨0, 0, c⟩, ⟨0, 0, c⟩, ⟨0, 0, c⟩, ⟨0, 0, c⟩, ⟨0, 0, c⟩,
    ⟨0, 0, c⟩]

/-- Joints consulted by pull-up validation, as the spec lists them: left
shoulder (5), right shoulder (6), left wrist (9), right wrist (10). -/
def consultedJoints : List ℕ := [5, 6, 9, 10]

/-- Aggregate confidence as the spec words it: the minimum confidence among
the consulted joints. -/
def aggregateConfidence (ks : List Keypoint) : ℚ :=
  match consultedJoints.map (fun i => (ks.getD i default).conf) with
  | [] => 0
  | c :: cs => cs.foldl min c

namespace PullUpCounter

lemma _calculate_movement_none {position_history : List ℚ}
    (h : position_history.length < LOOKBACK_FRAMES) :
    _calculate_movement_from_history position_history = none := by
  simp only [_calculate_movement_from_history, if_pos h]

lemma update_counters_proj (s : CounterState) (d : String) :
    (_update_consecutive_frame_counters s d).count = s.count ∧
    (_update_consecutive_frame_counters s d).position_history = s.position_history ∧
    (_update_consecutive_frame_counters s d).direction_history = s.direction_history ∧
    (_update_consecutive_frame_counters s d).current_direction = s.current_direction ∧
    (_update_consecutive_frame_counters s d).last_rep_time = s.last_rep_time := by
  unfold _update_consecutive_frame_counters
  dsimp only
  repeat' split
  all_goals exact ⟨rfl, rfl, rfl, rfl, rfl⟩

lemma display_proj (s : CounterState) (d : String) :
    (_update_display_status s d).count = s.count ∧
    (_update_display_status s d).position_history = s.position_history ∧
    (_update_display_status s d).direction_history = s.direction_history ∧
    (_update_display_status s d).current_direction = s.current_direction ∧
    (_update_display_status s d).last_rep_time = s.last_rep_time := by
  unfold _update_display_status
  repeat' split
  all_goals exact ⟨rfl, rfl, rfl, rfl, rfl⟩

lemma checkRep_cases (cfg : Config) (s : CounterState) (now : ℚ) :
    _check_for_rep_completion cfg s now = (s, false) ∨
    _check_for_rep_completion cfg s now = (_count_rep s now, true) := by
  unfold _check_for_rep_completion
  dsimp only
  repeat' split
  all_goals first | exact Or.inl rfl | exact Or.inr rfl

lemma checkRep_pos (cfg : Config) (s : CounterState) (now : ℚ) :
    (_check_for_rep_completion cfg s now).1.position_history = s.position_history := by
  rcases checkRep_cases cfg s now with h | h <;> simp [h, _count_rep]

lemma checkRep_no_history (cfg : Config) (s : CounterState) (now : ℚ)
    (h : s.direction_history.length < 2) :
    _check_for_rep_completion cfg s now = (s, false) := by
  unfold _check_for_rep_completion
  dsimp only
  repeat' split
  all_goals rfl

lemma detect_starting (cfg : Config) (s : CounterState) (now d : ℚ)
    (h : (dequeAppend POSITION_HISTORY_SIZE s.position_history d).length < LOOKBACK_FRAMES) :
    detect_direction_change cfg s now d =
      ({ s with position_history := dequeAppend POSITION_HISTORY_SIZE s.position_history d },
        DIRECTION_STARTING, 0) := by
  unfold detect_direction_change
  dsimp only
  rw [_calculate_movement_none h]

lemma detect_pos (cfg : Config) (s : CounterState) (now d : ℚ) :
    (detect_direction_change cfg s now d).1.position_history =
      dequeAppend POSITION_HISTORY_SIZE s.position_history d ∧
    (detect_direction_change cfg s now d).1.count = s.count ∧
    (detect_direction_change cfg s now d).1.last_rep_time = s.last_rep_time := by
  unfold detect_direction_change
  dsimp only
  split
  · exact ⟨rfl, rfl, rfl⟩
  · rename_i m hm
    obtain ⟨h1, h2, h3, h4, h5⟩ := update_counters_proj
      { s with position_history := dequeAppend POSITION_HISTORY_SIZE s.position_history d }
      (_classify_movement_direction cfg m)
    split
    · exact ⟨h2, h1, h5⟩
    · exact ⟨h2, h1, h5⟩

lemma analyze_error (cfg : Config) (s : CounterState) (frame : Option (List Keypoint))
    (now : ℚ) (err : String) (h : _validate_keypoints cfg frame = .error err) :
    analyze_pose cfg s frame now = (s, s.count, err) := by
  unfold analyze_pose
  rw [h]

lemma analyze_ok (cfg : Config) (s : CounterState) (frame : Option (List Keypoint))
    (now v : ℚ) (hv : _validate_keypoints cfg frame = .ok v) :
    analyze_pose cfg s frame now =
      (_update_display_status
          (_check_for_rep_completion cfg (detect_direction_change cfg s now v).1 now).1
          (detect_direction_change cfg s now v).2.1,
        (_update_display_status
          (_check_for_rep_completion cfg (detect_direction_change cfg s now v).1 now).1
          (detect_direction_change cfg s now v).2.1).count,
        (_update_display_status
          (_check_for_rep_completion cfg (detect_direction_change cfg s now v).1 now).1
          (detect_direction_change cfg s now v).2.1).status) := by
  unfold analyze_pose
  rw [hv]

lemma analyze_count_step (cfg : Config) (s : CounterState)
    (frame : Option (List Keypoint)) (now : ℚ) :
    (analyze_pose cfg s frame now).1.count = s.count ∨
    (analyze_pose cfg s frame now).1.count = s.count + 1 := by
  cases hv : _validate_keypoints cfg frame with
  | error e => rw [analyze_error cfg s frame now e hv]; exact Or.inl rfl
  | ok v =>
    rw [analyze_ok cfg s frame now v hv]
    dsimp only
    rw [(display_proj _ _).1]
    rcases checkRep_cases cfg (detect_direction_change cfg s now v).1 now with h | h <;> rw [h]
    · exact Or.inl (detect_pos cfg s now v).2.1
    · right
      have := (detect_pos cfg s now v).2.1
      dsimp only [_count_rep]
      omega

lemma dequeAppend_short {xs : List ℚ} {x : ℚ}
    (h : (dequeAppend POSITION_HISTORY_SIZE xs x).length < LOOKBACK_FRAMES) :
    xs.length < LOOKBACK_FRAMES := by
  unfold dequeAppend at h
  dsimp only at h
  split at h
  · rename_i hgt
    rw [List.length_drop] at h
    simp only [List.length_append, List.length_singleton, POSITION_HISTORY_SIZE,
      LOOKBACK_FRAMES] at h hgt ⊢
    omega
  · simp only [List.length_append, List.length_singleton, LOOKBACK_FRAMES] at h ⊢
    omega

lemma analyze_dirInv (cfg : Config) (s : CounterState) (frame : Option (List Keypoint))
    (now : ℚ)
    (hinv : s.position_history.length < LOOKBACK_FRAMES → s.direction_history = []) :
    (analyze_pose cfg s frame now).1.position_history.length < LOOKBACK_FRAMES →
    (analyze_pose cfg s frame now).1.direction_history = [] := by
  cases hv : _validate_keypoints cfg frame with
  | error e => rw [analyze_error cfg s frame now e hv]; exact hinv
  | ok v =>
    rw [analyze_ok cfg s frame now v hv]
    dsimp only
    by_cases hlen :
        (dequeAppend POSITION_HISTORY_SIZE s.position_history v).length < LOOKBACK_FRAMES
    · rw [detect_starting cfg s now v hlen]
      dsimp only
      have hde : s.direction_history = [] := hinv (dequeAppend_short hlen)
      rw [checkRep_no_history cfg _ now (by simp [hde])]
      intro _
      rw [(display_proj _ _).2.2.1]
      exact hde
    · intro hfin
      exfalso
      rw [(display_proj _ _).2.1, checkRep_pos, (detect_pos cfg s now v).1] at hfin
      exact hlen hfin

lemma runFrames_dirInv (cfg : Config) (inputs : List (Option (List Keypoint) × ℚ)) :
    ∀ s : CounterState,
      (s.position_history.length < LOOKBACK_FRAMES → s.direction_history = []) →
      ((runFrames cfg s inputs).position_history.length < LOOKBACK_FRAMES →
        (runFrames cfg s inputs).direction_history = []) := by
  induction inputs with
  | nil => intro s h; exact h
  | cons p rest ih =>
    intro s h
    obtain ⟨kp, now⟩ := p
    simp only [runFrames]
    exact ih _ (analyze_dirInv cfg s kp now h)

lemma reachable_dirInv (cfg : Config) (s : CounterState) (h : Reachable cfg s) :
    s.position_history.length < LOOKBACK_FRAMES → s.direction_history = [] := by
  obtain ⟨inputs, rfl⟩ := h
  exact runFrames_dirInv cfg inputs initState (fun _ => rfl)

lemma checkRep_pattern_eval (cfg : Config) (s : CounterState) (now : ℚ)
    (pre : List DirEntry) (t1 p1 t2 p2 : ℚ)
    (hd : s.direction_history = pre ++ [(DIRECTION_UP, t1, p1), (DIRECTION_DOWN, t2, p2)])
    (hc : cfg.rep_cooldown < now - s.last_rep_time) :
    _check_for_rep_completion cfg s now =
      if |p2 - p1| ≤ cfg.min_movement_range then (s, false)
      else (_count_rep s now, true) := by
  have hlen : s.direction_history.length = pre.length + 2 := by rw [hd]; simp
  have hdrop : s.direction_history.drop (s.direction_history.length - 2)
      = [(DIRECTION_UP, t1, p1), (DIRECTION_DOWN, t2, p2)] := by
    rw [hd]
    exact List.drop_left' (by simp)
  unfold _check_for_rep_completion
  rw [if_neg (not_le.mpr hc), if_neg (by omega)]
  dsimp only
  rw [hdrop]
  rw [if_neg (by simp [DIRECTION_UP, DIRECTION_DOWN])]
  simp [List.getLastD]

lemma aggregateConfidence_eq (ks : List Keypoint) :
    aggregateConfidence ks =
      min (min (min (ks.getD 5 default).conf (ks.getD 6 default).conf)
        (ks.getD 9 default).conf) (ks.getD 10 default).conf := by
  simp [aggregateConfidence, consultedJoints]

/-- C1: the claim states that with cooldown elapsed, at least two direction
history entries and sufficient range, a rep is counted iff the last two
entries are DOWN (older) then UP (newer). The code tests the opposite
polarity: with defaults, cooldown elapsed (`now = 10`, last rep at 0) and a
50-pixel range, the history DOWN-then-UP is rejected while UP-then-DOWN is
counted, contradicting the claim and the docstring of
`_check_for_rep_completion` itself. -/
theorem C1_rep_pattern_polarity_reversed :
    (_check_for_rep_completion pullUpConfig
      { initState with direction_history := [(DIRECTION_DOWN, 0, -100), (DIRECTION_UP, 1, -50)] }
      10).2 = false ∧
    (_check_for_rep_completion pullUpConfig
      { initState with direction_history := [(DIRECTION_UP, 0, -50), (DIRECTION_DOWN, 1, -100)] }
      10).2 = true := by
  constructor <;> norm_num [_check_for_rep_completion, _count_rep, initState, pullUpConfig,
    DIRECTION_UP, DIRECTION_DOWN]
  decide

/-- C2 (counterexample): for a usable frame that leaves Position History with
fewer than 5 samples, `analyze_pose` returns the count paired with the
`stable` status label, not the `starting` label the claim states: on the
initial state and a full-confidence 17-keypoint frame, the returned pair is
`(0, "stable")`, and `"stable" ≠ "starting"`. -/
theorem C2_counterexample :
    _validate_keypoints pullUpConfig (some (frame17 1)) = .ok 0 ∧
    (dequeAppend POSITION_HISTORY_SIZE initState.position_history 0).length <
      LOOKBACK_FRAMES ∧
    (analyze_pose pullUpConfig initState (some (frame17 1)) 0).2 = (0, STATUS_STABLE) ∧
    STATUS_STABLE ≠ DIRECTION_STARTING := by
  have hv : _validate_keypoints pullUpConfig (some (frame17 1)) = .ok 0 := by
    norm_num [_validate_keypoints, extract_shoulder_wrist_keypoints, frame17,
      calculate_wrist_shoulder_diff, pullUpConfig]
  have hl : (dequeAppend POSITION_HISTORY_SIZE initState.position_history (0 : ℚ)).length <
      LOOKBACK_FRAMES := by
    norm_num [dequeAppend, initState, POSITION_HISTORY_SIZE, LOOKBACK_FRAMES]
  refine ⟨hv, hl, ?_, by decide⟩
  rw [analyze_ok pullUpConfig initState _ 0 0 hv]
  dsimp only
  rw [detect_starting pullUpConfig initState 0 0 hl]
  dsimp only
  rw [checkRep_no_history pullUpConfig _ 0 (by simp [initState])]
  dsimp only
  unfold _update_display_status
  rw [if_neg (by decide), if_neg (by decide)]
  rfl

/-- C2 (amended): for every reachable counter state, a call to `analyze_pose`
with a usable frame such that Position History holds fewer than 5 samples
after the new signal value is appended returns the unchanged count paired
with the STABLE status label (`"stable"`). -/
theorem C2_short_history_returns_stable (cfg : Config) (s : CounterState)
    (frame : Option (List Keypoint)) (now v : ℚ)
    (hreach : Reachable cfg s)
    (hok : _validate_keypoints cfg frame = .ok v)
    (hshort : (dequeAppend POSITION_HISTORY_SIZE s.position_history v).length <
      LOOKBACK_FRAMES) :
    (analyze_pose cfg s frame now).2 = (s.count, STATUS_STABLE) := by
  have hde : s.direction_history = [] :=
    reachable_dirInv cfg s hreach (dequeAppend_short hshort)
  rw [analyze_ok cfg s frame now v hok]
  dsimp only
  rw [detect_starting cfg s now v hshort]
  dsimp only
  rw [checkRep_no_history cfg _ now (by simp [hde])]
  dsimp only
  unfold _update_display_status
  rw [if_neg (by decide), if_neg (by decide)]

/-- C2 (witness): the amended theorem applied at the initial state with a
full-confidence frame and `now = 0`. -/
theorem C2_short_history_returns_stable_witness :
    (analyze_pose pullUpConfig initState (some (frame17 1)) 0).2 = (0, STATUS_STABLE) :=
  C2_short_history_returns_stable pullUpConfig initState (some (frame17 1)) 0 0
    ⟨[], rfl⟩
    (by norm_num [_validate_keypoints, extract_shoulder_wrist_keypoints, frame17,
      calculate_wrist_shoulder_diff, pullUpConfig])
    (by norm_num [dequeAppend, initState, POSITION_HISTORY_SIZE, LOOKBACK_FRAMES])

/-- C3: the claim states `calculate_hip_knee_diff` averages both knees; the
code ignores its `right_knee` argument (it computes
`(left_knee_y + left_knee_y) / 2`). At hips y = 100, left knee y = 10 and
right knee y = 30 the code yields 90 while the both-knee average formula of
the spec yields 80. -/
theorem C3_hip_knee_uses_left_knee_only :
    (∀ lh rh lk rk rk2 : Keypoint,
      calculate_hip_knee_diff lh rh lk rk = calculate_hip_knee_diff lh rh lk rk2) ∧
    calculate_hip_knee_diff ⟨0, 100, 1⟩ ⟨0, 100, 1⟩ ⟨0, 10, 1⟩ ⟨0, 30, 1⟩ = 90 ∧
    calculate_hip_knee_diff_claim ⟨0, 100, 1⟩ ⟨0, 100, 1⟩ ⟨0, 10, 1⟩ ⟨0, 30, 1⟩ = 80 := by
  refine ⟨fun _ _ _ _ _ => rfl, ?_, ?_⟩ <;>
    norm_num [calculate_hip_knee_diff, calculate_hip_knee_diff_claim, abs]

/-- C4 (counterexample): the claim states every construction of a
`SquatCounter` raises `TypeError`. In fact the construction pipeline fails
earlier: at a concrete argument triple it yields `IndentationError` — the
load of `models.base_counter` aborts during tokenization — and not
`TypeError`. -/
theorem C4_counterexample :
    SquatCounter.construct (0 : ℚ) 0 0 = Except.error "IndentationError" ∧
    SquatCounter.construct (0 : ℚ) 0 0 ≠ Except.error "TypeError" := by
  have h : SquatCounter.construct (0 : ℚ) 0 0 = Except.error "IndentationError" := rfl
  refine ⟨h, fun hc => ?_⟩
  rw [h] at hc
  exact absurd (Except.error.inj hc) (by decide)

/-- C4 (amended): the indentation profile of `base_counter.py` is rejected by
Python's tokenizer (source line 163 dedents to width 9, matching no enclosing
suite), so importing `models.base_counter` raises `IndentationError`,
`SquatCounter` is never defined, and every construction attempt fails with
`IndentationError` — never with the claimed construction-time `TypeError`,
and never producing a counter state. The three-argument forwarding to the
two-parameter `Counter.__init__` exists in the dead source text but is
unreachable. -/
theorem C4_base_counter_never_imports :
    tokenizeIndents [0] baseCounterIndentWidths = none ∧
    ∀ (α : Type) (config logger test_script : α),
      SquatCounter.construct config logger test_script =
        Except.error "IndentationError" := by
  have h : tokenizeIndents [0] baseCounterIndentWidths = none := rfl
  refine ⟨h, fun α c l t => ?_⟩
  unfold SquatCounter.construct
  rw [h]

/-- C5: if the elapsed time since the last counted rep is at most the
cooldown, `_check_for_rep_completion` returns `false` and the whole state
(hence the count) is unchanged, whatever Direction History holds; and once
the cooldown has elapsed, a pattern accepted by the code with range above the
minimum increments the count by one. -/
theorem C5_cooldown_enforcement (cfg : Config) (s : CounterState) (now : ℚ) :
    (now - s.last_rep_time ≤ cfg.rep_cooldown →
      _check_for_rep_completion cfg s now = (s, false)) ∧
    (∀ (pre : List DirEntry) (t1 p1 t2 p2 : ℚ),
      s.direction_history = pre ++ [(DIRECTION_UP, t1, p1), (DIRECTION_DOWN, t2, p2)] →
      cfg.rep_cooldown < now - s.last_rep_time →
      cfg.min_movement_range < |p2 - p1| →
      (_check_for_rep_completion cfg s now).1.count = s.count + 1 ∧
      (_check_for_rep_completion cfg s now).2 = true) := by
  constructor
  · intro h
    unfold _check_for_rep_completion
    rw [if_pos h]
  · intro pre t1 p1 t2 p2 hd hc hr
    rw [checkRep_pattern_eval cfg s now pre t1 p1 t2 p2 hd hc, if_neg (not_le.mpr hr)]
    exact ⟨rfl, rfl⟩

/-- C5 (witness): with defaults, at `now = 1` (elapsed 1 ≤ 2) no rep is
counted from the initial state; at `now = 10` a matched pattern with range
100 increments the count to 1. -/
theorem C5_cooldown_enforcement_witness :
    _check_for_rep_completion pullUpConfig initState 1 = (initState, false) ∧
    (_check_for_rep_completion pullUpConfig
      { initState with direction_history := [(DIRECTION_UP, 0, 0), (DIRECTION_DOWN, 1, -100)] }
      10).1.count = 1 := by
  constructor
  · exact (C5_cooldown_enforcement pullUpConfig initState 1).1
      (by norm_num [initState, pullUpConfig])
  · exact ((C5_cooldown_enforcement pullUpConfig _ 10).2 [] 0 0 1 (-100) rfl
      (by norm_num [initState, pullUpConfig]) (by norm_num [pullUpConfig, abs])).1

/-- C6: with the cooldown elapsed and the Direction History ending in the
two-entry pattern `_check_for_rep_completion` requires, the rep is rejected
with the state unchanged when the absolute difference of the recorded signal
values is at most `min_movement_range` (boundary included), and counted
(count incremented by one) when it is strictly greater. -/
theorem C6_range_gate (cfg : Config) (s : CounterState) (now : ℚ)
    (pre : List DirEntry) (t1 p1 t2 p2 : ℚ)
    (hd : s.direction_history = pre ++ [(DIRECTION_UP, t1, p1), (DIRECTION_DOWN, t2, p2)])
    (hc : cfg.rep_cooldown < now - s.last_rep_time) :
    (|p2 - p1| ≤ cfg.min_movement_range →
      _check_for_rep_completion cfg s now = (s, false)) ∧
    (cfg.min_movement_range < |p2 - p1| →
      (_check_for_rep_completion cfg s now).1.count = s.count + 1 ∧
      (_check_for_rep_completion cfg s now).2 = true) := by
  rw [checkRep_pattern_eval cfg s now pre t1 p1 t2 p2 hd hc]
  constructor
  · intro h; rw [if_pos h]
  · intro h; rw [if_neg (not_le.mpr h)]; exact ⟨rfl, rfl⟩

/-- C6 (witness): with defaults and cooldown elapsed, a matched pattern whose
recorded values differ by exactly 30 does not count, while a difference of 40
increments the count to 1. -/
theorem C6_range_gate_witness :
    _check_for_rep_completion pullUpConfig
      { initState with direction_history := [(DIRECTION_UP, 0, -50), (DIRECTION_DOWN, 1, -80)] }
      10 =
      ({ initState with direction_history := [(DIRECTION_UP, 0, -50), (DIRECTION_DOWN, 1, -80)] },
        false) ∧
    (_check_for_rep_completion pullUpConfig
      { initState with direction_history := [(DIRECTION_UP, 0, -10), (DIRECTION_DOWN, 1, -50)] }
      10).1.count = 1 := by
  constructor
  · exact (C6_range_gate pullUpConfig _ 10 [] 0 (-50) 1 (-80) rfl
      (by norm_num [initState, pullUpConfig])).1 (by norm_num [pullUpConfig, abs])
  · exact ((C6_range_gate pullUpConfig _ 10 [] 0 (-10) 1 (-50) rfl
      (by norm_num [initState, pullUpConfig])).2 (by norm_num [pullUpConfig, abs])).1

/-- C7: for every unusable frame (one `_validate_keypoints` rejects with a
reason), `analyze_pose` returns the current count paired with that reason and
the entire counter state is returned unchanged. -/
theorem C7_unusable_frame_state_unchanged (cfg : Config) (s : CounterState)
    (frame : Option (List Keypoint)) (now : ℚ) (err : String)
    (h : _validate_keypoints cfg frame = .error err) :
    analyze_pose cfg s frame now = (s, s.count, err) := by
  unfold analyze_pose
  rw [h]

/-- C7 (witness): an absent frame on the initial state returns
`(0, "no_person")` with the state untouched. -/
theorem C7_unusable_frame_state_unchanged_witness :
    analyze_pose pullUpConfig initState none 0 = (initState, 0, STATUS_NO_PERSON) :=
  C7_unusable_frame_state_unchanged pullUpConfig initState none 0 STATUS_NO_PERSON rfl

/-- C8: `_validate_keypoints` classifies frames exactly as the claim states:
an absent (`None`) or empty frame yields `no_person`; a nonempty frame with
fewer than 17 keypoints yields `invalid_keypoints`; otherwise, when the
minimum confidence over the four consulted joints (left/right shoulder,
left/right wrist) is below `min_confidence` it yields `low_confidence`, and
in all remaining cases the frame is usable. -/
theorem C8_validation_classification (cfg : Config) :
    (_validate_keypoints cfg none = .error STATUS_NO_PERSON) ∧
    (_validate_keypoints cfg (some []) = .error STATUS_NO_PERSON) ∧
    (∀ ks : List Keypoint, ks ≠ [] → ks.length < 17 →
      _validate_keypoints cfg (some ks) = .error STATUS_INVALID_KEYPOINTS) ∧
    (∀ ks : List Keypoint, 17 ≤ ks.length →
      aggregateConfidence ks < cfg.min_confidence →
      _validate_keypoints cfg (some ks) = .error STATUS_LOW_CONFIDENCE) ∧
    (∀ ks : List Keypoint, 17 ≤ ks.length →
      cfg.min_confidence ≤ aggregateConfidence ks →
      ∃ d, _validate_keypoints cfg (some ks) = .ok d) := by
  refine ⟨rfl, rfl, ?_, ?_, ?_⟩
  · intro ks h0 h17
    have hne : ¬ ks.length = 0 := by simpa using h0
    unfold _validate_keypoints
    dsimp only
    rw [if_neg hne]
    unfold extract_shoulder_wrist_keypoints
    rw [if_pos h17]
  · intro ks h17 hlow
    rw [aggregateConfidence_eq] at hlow
    have hne : ¬ ks.length = 0 := by omega
    unfold _validate_keypoints
    dsimp only
    rw [if_neg hne]
    unfold extract_shoulder_wrist_keypoints
    rw [if_neg (not_lt.mpr h17)]
    dsimp only
    rw [if_pos hlow]
  · intro ks h17 hge
    rw [aggregateConfidence_eq] at hge
    have hne : ¬ ks.length = 0 := by omega
    unfold _validate_keypoints
    dsimp only
    rw [if_neg hne]
    unfold extract_shoulder_wrist_keypoints
    rw [if_neg (not_lt.mpr h17)]
    dsimp only
    rw [if_neg (not_lt.mpr hge)]
    exact ⟨_, rfl⟩

/-- C8 (witness): a 1-keypoint frame is rejected as `invalid_keypoints`, a
17-keypoint frame of confidence 0.1 as `low_confidence`, and a 17-keypoint
frame of confidence 1 is usable, all with the default configuration. -/
theorem C8_validation_classification_witness :
    _validate_keypoints pullUpConfig (some [⟨0, 0, 1⟩]) = .error STATUS_INVALID_KEYPOINTS ∧
    _validate_keypoints pullUpConfig (some (frame17 (1/10))) = .error STATUS_LOW_CONFIDENCE ∧
    ∃ d, _validate_keypoints pullUpConfig (some (frame17 1)) = .ok d := by
  refine ⟨?_, ?_, ?_⟩
  · exact (C8_validation_classification pullUpConfig).2.2.1 [⟨0, 0, 1⟩]
      (by simp) (by norm_num)
  · exact (C8_validation_classification pullUpConfig).2.2.2.1 (frame17 (1/10))
      (by norm_num [frame17])
      (by norm_num [aggregateConfidence_eq, frame17, pullUpConfig])
  · exact (C8_validation_classification pullUpConfig).2.2.2.2 (frame17 1)
      (by norm_num [frame17])
      (by norm_num [aggregateConfidence_eq, frame17, pullUpConfig])

/-- C9: every call to `analyze_pose` leaves the count unchanged or increments
it by exactly one; over any input sequence without an intervening reset the
count is non-decreasing; and `reset` sets the count back to 0. -/
theorem C9_count_monotonic :
    (∀ (cfg : Config) (s : CounterState) (frame : Option (List Keypoint)) (now : ℚ),
      (analyze_pose cfg s frame now).1.count = s.count ∨
      (analyze_pose cfg s frame now).1.count = s.count + 1) ∧
    (∀ (cfg : Config) (s : CounterState) (inputs : List (Option (List Keypoint) × ℚ)),
      s.count ≤ (runFrames cfg s inputs).count) ∧
    (∀ s : CounterState, (reset s).count = 0) := by
  refine ⟨analyze_count_step, ?_, fun _ => rfl⟩
  intro cfg s inputs
  induction inputs generalizing s with
  | nil => exact le_refl _
  | cons p rest ih =>
    obtain ⟨kp, now⟩ := p
    simp only [runFrames]
    refine le_trans ?_ (ih (analyze_pose cfg s kp now).1)
    rcases analyze_count_step cfg s kp now with h | h <;> omega

/-- C10 (amended): with at least five samples in Position History, the
computed movement is the newest sample minus the oldest of the five most
recent samples, i.e. the sample appended four appends before the newest one
(not five, as the claim glosses). -/
theorem C10_movement_is_span_of_last_five (pre : List ℚ) (a b c d e : ℚ) :
    _calculate_movement_from_history (pre ++ [a, b, c, d, e]) = some (e - a) := by
  have hlen : (pre ++ [a, b, c, d, e]).length = pre.length + 5 := by simp
  have h5 : ¬ (pre ++ [a, b, c, d, e]).length < LOOKBACK_FRAMES := by
    rw [hlen]; unfold LOOKBACK_FRAMES; omega
  have hdrop : (pre ++ [a, b, c, d, e]).drop ((pre ++ [a, b, c, d, e]).length - LOOKBACK_FRAMES)
      = [a, b, c, d, e] := by
    rw [hlen]
    exact List.drop_left' (by unfold LOOKBACK_FRAMES; omega)
  unfold _calculate_movement_from_history
  rw [if_neg h5]
  dsimp only
  rw [hdrop]
  simp [List.getLastD]

/-- C10 (counterexample): on the six-sample history `[0, 10, 20, 30, 40, 50]`
the code computes `50 - 10 = 40`, not `50 - 0 = 50` as the claim's reading
(newest minus the sample appended five appends before it) would give. -/
theorem C10_counterexample :
    _calculate_movement_from_history [0, 10, 20, 30, 40, 50] = some 40 ∧
    _calculate_movement_from_history [0, 10, 20, 30, 40, 50] ≠ some ((50 : ℚ) - 0) := by
  have h := C10_movement_is_span_of_last_five [0] 10 20 30 40 50
  norm_num at h
  refine ⟨h, ?_⟩
  rw [h]
  norm_num

end PullUpCounter
